import Mathlib

/-
Shallow embedding of the smTIRF dot simulation (smTIRF_simulation_2.py).
Positions and velocities are embedded as rationals, phases and the sine
computation as real numbers; the Python int() conversion is embedded as
truncation toward zero.
-/

namespace SmTIRF

/-- Frame width constant from the source (WIDTH = 512). -/
def WIDTH : ℚ := 512

/-- Frame height constant from the source (HEIGHT = 512). -/
def HEIGHT : ℚ := 512

/-- Number of frames (FRAMES = 500). -/
def FRAMES : ℕ := 500

/-- Total dot count (NUM_DOTS = 200). -/
def NUM_DOTS : ℕ := 200

/-- Fraction of moving dots (MOVING_PERCENTAGE = 0.1). -/
def MOVING_PERCENTAGE : ℚ := 1 / 10

/-- Fraction of static bright dots (STATIC_BRIGHT_PERCENTAGE = 0.05). -/
def STATIC_BRIGHT_PERCENTAGE : ℚ := 1 / 20

/-- Maximum dot radius (MAX_DOT_SIZE = 5). -/
def MAX_DOT_SIZE : ℤ := 5

/-- Pulsation rate used in get_size (the literal 0.2 in the source). -/
noncomputable def PULSATION_RATE : ℝ := 1 / 5

/-- Python int() conversion on a rational: truncation toward zero. -/
def pyIntQ (q : ℚ) : ℤ := if 0 ≤ q then ⌊q⌋ else ⌈q⌉

/-- Python int() conversion on a real: truncation toward zero. -/
noncomputable def pyIntR (r : ℝ) : ℤ := if 0 ≤ r then ⌊r⌋ else ⌈r⌉

/-- The Dot entity: fields mirror Dot.__init__ in the source. -/
structure Dot where
  x : ℚ
  y : ℚ
  initial_x : ℚ
  initial_y : ℚ
  is_moving : Bool
  is_static_bright : Bool
  phase : ℝ
  dx : ℚ
  dy : ℚ

/-- Dot constructor mirroring Dot.__init__: initial position copies the
given position, and the velocity parameters are used only for moving dots
(non-moving dots get zero velocity). -/
def Dot.mkInit (x y : ℚ) (is_moving is_static_bright : Bool) (phase : ℝ)
    (vx vy : ℚ) : Dot :=
  { x := x, y := y, initial_x := x, initial_y := y,
    is_moving := is_moving, is_static_bright := is_static_bright,
    phase := phase,
    dx := if is_moving then vx else 0,
    dy := if is_moving then vy else 0 }

/-- One axis of the bounce logic in Dot.update: given the already advanced
coordinate p and the velocity component v, if p reached or passed a bound
the velocity sign is inverted and p is clamped into [0, bound]; the test is
made on the unclamped coordinate. Returns (new coordinate, new velocity). -/
def bounce (p v bound : ℚ) : ℚ × ℚ :=
  if p ≤ 0 ∨ bound ≤ p then (max 0 (min bound p), -v) else (p, v)

/-- Dot.update from the source: a no-op for non-moving dots; moving dots add
velocity to position and bounce each axis independently. The frame number
parameter is accepted as in the source and unused. -/
def Dot.update (d : Dot) (_frame_num : ℕ) : Dot :=
  if d.is_moving then
    let bx := bounce (d.x + d.dx) d.dx WIDTH
    let bY := bounce (d.y + d.dy) d.dy HEIGHT
    { d with x := bx.1, dx := bx.2, y := bY.1, dy := bY.2 }
  else d

/-- Dot.get_size from the source: static bright dots return twice the
maximum size; all others pulse with a sinusoid of the frame number and the
phase, mapped from [-1, 1] to [0, MAX_DOT_SIZE] and truncated to an
integer. -/
noncomputable def Dot.get_size (d : Dot) (frame_num : ℕ) : ℤ :=
  if d.is_static_bright then MAX_DOT_SIZE * 2
  else
    pyIntR ((MAX_DOT_SIZE : ℝ) *
      (Real.sin ((frame_num : ℝ) * PULSATION_RATE + d.phase) + 1) / 2)

/-- Dot.is_true_event from the source: true when the dot is neither moving
nor static bright. -/
def Dot.is_true_event (d : Dot) : Bool :=
  !d.is_moving && !d.is_static_bright

/-- The category enumeration of the specification data model. -/
inductive Category where
  | moving
  | staticBright
  | stationaryPulsating
deriving DecidableEq

/-- The category of a dot, derived from its two behavior flags. -/
def Dot.category (d : Dot) : Category :=
  if d.is_moving then Category.moving
  else if d.is_static_bright then Category.staticBright
  else Category.stationaryPulsating

/-- The manifest record written by Dot.to_dict. -/
structure DotRecord where
  initial_x : ℚ
  initial_y : ℚ
  is_true_event : Bool
  is_moving : Bool
  is_static_bright : Bool
  is_pulsating : Bool

/-- Dot.to_dict from the source: the JSON record of one dot. -/
def Dot.to_dict (d : Dot) : DotRecord :=
  { initial_x := d.initial_x, initial_y := d.initial_y,
    is_true_event := d.is_true_event,
    is_moving := d.is_moving,
    is_static_bright := d.is_static_bright,
    is_pulsating := !d.is_static_bright }

/-- The moving-dot count computed in create_dots:
int(NUM_DOTS * MOVING_PERCENTAGE), with the globals as parameters. -/
def num_moving (total : ℕ) (mf : ℚ) : ℤ := pyIntQ ((total : ℚ) * mf)

/-- The static-bright count computed in create_dots:
int(NUM_DOTS * STATIC_BRIGHT_PERCENTAGE). -/
def num_static_bright (total : ℕ) (sf : ℚ) : ℤ := pyIntQ ((total : ℚ) * sf)

/-- The stationary pulsating count computed in create_dots:
the remainder NUM_DOTS - num_moving - num_static_bright. -/
def num_pulsating (total : ℕ) (mf sf : ℚ) : ℤ :=
  (total : ℤ) - num_moving total mf - num_static_bright total sf

/-- create_dots from the source, with the module constants as parameters
and the opaque random draws supplied as streams indexed by dot ordinal:
pos gives each dot its position, vel the velocity draw (used only by
moving dots), phase the pulsation phase. The three loops append the
moving block, then the static bright block, then the stationary
pulsating block. -/
def create_dots (total : ℕ) (mf sf : ℚ)
    (pos : ℕ → ℚ × ℚ) (vel : ℕ → ℚ × ℚ) (phase : ℕ → ℝ) : List Dot :=
  let nm := (num_moving total mf).toNat
  let nsb := (num_static_bright total sf).toNat
  let np := (num_pulsating total mf sf).toNat
  ((List.range nm).map fun i =>
    Dot.mkInit (pos i).1 (pos i).2 true false (phase i) (vel i).1 (vel i).2) ++
  ((List.range nsb).map fun i =>
    Dot.mkInit (pos (nm + i)).1 (pos (nm + i)).2 false true
      (phase (nm + i)) (vel (nm + i)).1 (vel (nm + i)).2) ++
  ((List.range np).map fun i =>
    Dot.mkInit (pos (nm + nsb + i)).1 (pos (nm + nsb + i)).2 false false
      (phase (nm + nsb + i)) (vel (nm + nsb + i)).1 (vel (nm + nsb + i)).2)

/-- The manifest written by save_dot_list: one to_dict record per dot, in
population order. -/
def save_dot_list (dots : List Dot) : List DotRecord :=
  dots.map Dot.to_dict

/-- The true-event count printed by save_dot_list:
sum(1 for dot in dots if dot.is_true_event()). -/
def true_events (dots : List Dot) : ℕ :=
  dots.countP fun d => d.is_true_event

/-- The false-event count printed by save_dot_list: len(dots) - true_events. -/
def false_events (dots : List Dot) : ℕ :=
  dots.length - true_events dots

/-- Number of dots of a given category in a population. -/
def count_category (c : Category) (dots : List Dot) : ℕ :=
  dots.countP fun d => decide (d.category = c)

/-- A frame pixel buffer: three channels per pixel coordinate. -/
def Buffer : Type := ℕ → ℕ → ℕ × ℕ × ℕ

/-- The fresh black background allocated at the top of draw_frame
(np.zeros of the frame dimensions). -/
def zero_frame : Buffer := fun _ _ => (0, 0, 0)

/-- The body of the per-dot loop in draw_frame: update the dot, compute its
size, and rasterize it with the external circle primitive only when the
size is positive. The accumulated state is the processed dots and the
buffer. -/
noncomputable def draw_step (circle : Buffer → ℤ × ℤ → ℤ → Buffer)
    (frame_num : ℕ) (st : List Dot × Buffer) (d : Dot) : List Dot × Buffer :=
  let d1 := d.update frame_num
  let size := d1.get_size frame_num
  (st.1 ++ [d1],
    if 0 < size then circle st.2 (pyIntQ d1.x, pyIntQ d1.y) size else st.2)

/-- The rasterization loop of draw_frame, starting from the fresh zero
buffer. -/
noncomputable def raster (circle : Buffer → ℤ × ℤ → ℤ → Buffer)
    (dots : List Dot) (frame_num : ℕ) : List Dot × Buffer :=
  dots.foldl (draw_step circle frame_num) ([], zero_frame)

/-- draw_frame from the source: rasterize all dots onto a fresh zero buffer,
then apply the external Gaussian blur collaborator to the buffer. Returns
the updated dots together with the blurred buffer. -/
noncomputable def draw_frame (circle : Buffer → ℤ × ℤ → ℤ → Buffer)
    (blur : Buffer → Buffer) (dots : List Dot) (frame_num : ℕ) :
    List Dot × Buffer :=
  ((raster circle dots frame_num).1, blur (raster circle dots frame_num).2)

/-- One iteration of the frame loop in main: render the current population
at the given frame number and append the frame to the output sequence. -/
noncomputable def sim_step (circle : Buffer → ℤ × ℤ → ℤ → Buffer)
    (blur : Buffer → Buffer) (st : List Dot × List Buffer) (frame_num : ℕ) :
    List Dot × List Buffer :=
  ((draw_frame circle blur st.1 frame_num).1,
    st.2 ++ [(draw_frame circle blur st.1 frame_num).2])

/-- The frame loop of main: for frame_num in range(frame_count), draw the
frame and append it. Returns the final population state and the ordered
frame sequence. -/
noncomputable def run_frames (circle : Buffer → ℤ × ℤ → ℤ → Buffer)
    (blur : Buffer → Buffer) (dots : List Dot) (frame_count : ℕ) :
    List Dot × List Buffer :=
  (List.range frame_count).foldl (sim_step circle blur) (dots, [])

/-- The population state after the first k render calls. -/
noncomputable def dots_after (circle : Buffer → ℤ × ℤ → ℤ → Buffer)
    (blur : Buffer → Buffer) (dots : List Dot) (k : ℕ) : List Dot :=
  (List.range k).foldl
    (fun ds frame_num => (draw_frame circle blur ds frame_num).1) dots

/-- Characterization of the position produced by one bounce step. -/
lemma bounce_fst (p v bound : ℚ) :
    (bounce p v bound).1 =
      if p ≤ 0 ∨ bound ≤ p then max 0 (min bound p) else p := by
  unfold bounce
  split <;> rfl

/-- Characterization of the velocity produced by one bounce step. -/
lemma bounce_snd (p v bound : ℚ) :
    (bounce p v bound).2 = if p ≤ 0 ∨ bound ≤ p then -v else v := by
  unfold bounce
  split <;> rfl

/-- The bounce step keeps the coordinate inside [0, bound]. -/
lemma bounce_mem (p v bound : ℚ) (hb : 0 ≤ bound) :
    0 ≤ (bounce p v bound).1 ∧ (bounce p v bound).1 ≤ bound := by
  by_cases hc : p ≤ 0 ∨ bound ≤ p
  · rw [bounce, if_pos hc]
    exact ⟨le_max_left _ _, max_le hb (min_le_left _ _)⟩
  · rw [bounce, if_neg hc]
    push_neg at hc
    exact ⟨le_of_lt hc.1, le_of_lt hc.2⟩

/-- Components of Dot.update for a moving dot. -/
lemma update_moving (d : Dot) (n : ℕ) (h : d.is_moving = true) :
    (d.update n).x = (bounce (d.x + d.dx) d.dx WIDTH).1 ∧
    (d.update n).dx = (bounce (d.x + d.dx) d.dx WIDTH).2 ∧
    (d.update n).y = (bounce (d.y + d.dy) d.dy HEIGHT).1 ∧
    (d.update n).dy = (bounce (d.y + d.dy) d.dy HEIGHT).2 := by
  simp [Dot.update, h]

/-- Claim C1: after Dot.update, a moving dot has its position inside
[0, WIDTH] on the x axis and [0, HEIGHT] on the y axis; on each axis the
velocity component is negated exactly when the advanced (unclamped)
coordinate reaches or passes a bound, and the coordinate is then clamped
into the bound interval, both axes handled independently. -/
theorem claim_C1_update_bounce_clamp (d : Dot) (n : ℕ) (h : d.is_moving = true) :
    (0 ≤ (d.update n).x ∧ (d.update n).x ≤ WIDTH ∧
     0 ≤ (d.update n).y ∧ (d.update n).y ≤ HEIGHT) ∧
    ((d.update n).dx =
      if d.x + d.dx ≤ 0 ∨ WIDTH ≤ d.x + d.dx then -d.dx else d.dx) ∧
    ((d.update n).dy =
      if d.y + d.dy ≤ 0 ∨ HEIGHT ≤ d.y + d.dy then -d.dy else d.dy) ∧
    ((d.update n).x =
      if d.x + d.dx ≤ 0 ∨ WIDTH ≤ d.x + d.dx
        then max 0 (min WIDTH (d.x + d.dx)) else d.x + d.dx) ∧
    ((d.update n).y =
      if d.y + d.dy ≤ 0 ∨ HEIGHT ≤ d.y + d.dy
        then max 0 (min HEIGHT (d.y + d.dy)) else d.y + d.dy) := by
  obtain ⟨hx, hdx, hy, hdy⟩ := update_moving d n h
  have hbx := bounce_mem (d.x + d.dx) d.dx WIDTH (by norm_num [WIDTH])
  have hby := bounce_mem (d.y + d.dy) d.dy HEIGHT (by norm_num [HEIGHT])
  refine ⟨⟨?_, ?_, ?_, ?_⟩, ?_, ?_, ?_, ?_⟩
  · rw [hx]; exact hbx.1
  · rw [hx]; exact hbx.2
  · rw [hy]; exact hby.1
  · rw [hy]; exact hby.2
  · rw [hdx, bounce_snd]
  · rw [hdy, bounce_snd]
  · rw [hx, bounce_fst]
  · rw [hy, bounce_fst]

/-- A concrete moving dot about to cross the right edge. -/
def c1dot : Dot := Dot.mkInit 511 100 true false 0 2 1

/-- Witness for claim C1 at a concrete moving dot. -/
theorem claim_C1_witness :
    c1dot.is_moving = true ∧
    ((0 ≤ (c1dot.update 0).x ∧ (c1dot.update 0).x ≤ WIDTH ∧
      0 ≤ (c1dot.update 0).y ∧ (c1dot.update 0).y ≤ HEIGHT) ∧
     ((c1dot.update 0).dx =
       if c1dot.x + c1dot.dx ≤ 0 ∨ WIDTH ≤ c1dot.x + c1dot.dx
         then -c1dot.dx else c1dot.dx) ∧
     ((c1dot.update 0).dy =
       if c1dot.y + c1dot.dy ≤ 0 ∨ HEIGHT ≤ c1dot.y + c1dot.dy
         then -c1dot.dy else c1dot.dy) ∧
     ((c1dot.update 0).x =
       if c1dot.x + c1dot.dx ≤ 0 ∨ WIDTH ≤ c1dot.x + c1dot.dx
         then max 0 (min WIDTH (c1dot.x + c1dot.dx)) else c1dot.x + c1dot.dx) ∧
     ((c1dot.update 0).y =
       if c1dot.y + c1dot.dy ≤ 0 ∨ HEIGHT ≤ c1dot.y + c1dot.dy
         then max 0 (min HEIGHT (c1dot.y + c1dot.dy)) else c1dot.y + c1dot.dy)) :=
  ⟨rfl, claim_C1_update_bounce_clamp c1dot 0 rfl⟩

/-- Claim C8: Dot.update is a no-op on any non-moving dot: the whole record,
hence every field, is unchanged. -/
theorem claim_C8_nonmoving_noop (d : Dot) (n : ℕ) (h : d.is_moving = false) :
    d.update n = d := by
  simp [Dot.update, h]

/-- A concrete static bright dot. -/
def c8dot : Dot := Dot.mkInit 5 6 false true 0 0 0

/-- Witness for claim C8 at a concrete non-moving dot. -/
theorem claim_C8_witness : c8dot.is_moving = false ∧ c8dot.update 0 = c8dot :=
  ⟨rfl, claim_C8_nonmoving_noop c8dot 0 rfl⟩

/-- Claim C4: a dot is a true event exactly when its derived category is
StationaryPulsating; the classification is a function of the category
flags, so it holds for every dot state. -/
theorem claim_C4_true_event_iff_category (d : Dot) :
    d.is_true_event = true ↔ d.category = Category.stationaryPulsating := by
  cases hm : d.is_moving <;> cases hs : d.is_static_bright <;>
    simp [Dot.is_true_event, Dot.category, hm, hs]

/-- A concrete stationary pulsating dot. -/
def c4dot : Dot := Dot.mkInit 1 2 false false 0 0 0

/-- Witness for claim C4 at a concrete dot. -/
theorem claim_C4_witness :
    c4dot.is_true_event = true ↔ c4dot.category = Category.stationaryPulsating :=
  claim_C4_true_event_iff_category c4dot

/-- Claim C5: the manifest holds one to_dict record per dot in population
order; each record carries the initial position and the four booleans,
with is_pulsating true exactly when the dot is not static bright, and the
booleans are mutually consistent: a true event is pulsating and neither
moving nor static bright. -/
theorem claim_C5_manifest_records (dots : List Dot) :
    save_dot_list dots = dots.map Dot.to_dict ∧
    (∀ d : Dot,
      (Dot.to_dict d).initial_x = d.initial_x ∧
      (Dot.to_dict d).initial_y = d.initial_y ∧
      (Dot.to_dict d).is_true_event = d.is_true_event ∧
      (Dot.to_dict d).is_moving = d.is_moving ∧
      (Dot.to_dict d).is_static_bright = d.is_static_bright ∧
      (Dot.to_dict d).is_pulsating = !d.is_static_bright ∧
      ((Dot.to_dict d).is_true_event = true →
        (Dot.to_dict d).is_pulsating = true ∧
        (Dot.to_dict d).is_moving = false ∧
        (Dot.to_dict d).is_static_bright = false)) := by
  refine ⟨rfl, fun d => ⟨rfl, rfl, rfl, rfl, rfl, rfl, fun ht => ?_⟩⟩
  cases hm : d.is_moving <;> cases hs : d.is_static_bright <;>
    simp_all [Dot.to_dict, Dot.is_true_event]

/-- A concrete stationary pulsating dot for the manifest witness. -/
def c5dot : Dot := Dot.mkInit 3 4 false false 0 0 0

/-- Witness for claim C5 at a concrete dot. -/
theorem claim_C5_witness :
    (Dot.to_dict c5dot).is_true_event = true ∧
    ((Dot.to_dict c5dot).is_pulsating = true ∧
     (Dot.to_dict c5dot).is_moving = false ∧
     (Dot.to_dict c5dot).is_static_bright = false) :=
  ⟨rfl, ((claim_C5_manifest_records []).2 c5dot).2.2.2.2.2.2 rfl⟩

/-- A concrete stationary pulsating dot with phase 0. -/
def c2dot : Dot := Dot.mkInit 10 10 false false 0 0 0

/-- Claim C2: every non-static-bright dot gets its size by truncating
toward zero MAX_DOT_SIZE * (sin(frame * (1/5) + phase) + 1) / 2, and a
stationary pulsating dot with phase 0 has size 2 at frame 0. -/
theorem claim_C2_get_size_formula :
    (∀ (d : Dot) (n : ℕ), d.is_static_bright = false →
      d.get_size n =
        pyIntR ((MAX_DOT_SIZE : ℝ) *
          (Real.sin ((n : ℝ) * (1 / 5) + d.phase) + 1) / 2)) ∧
    c2dot.get_size 0 = 2 := by
  constructor
  · intro d n h
    simp [Dot.get_size, h, PULSATION_RATE]
  · have hs : Real.sin (((0 : ℕ) : ℝ) * PULSATION_RATE + c2dot.phase) = 0 := by
      have : ((0 : ℕ) : ℝ) * PULSATION_RATE + c2dot.phase = 0 := by
        show ((0 : ℕ) : ℝ) * PULSATION_RATE + 0 = 0
        norm_num
      rw [this, Real.sin_zero]
    have hb : c2dot.is_static_bright = false := rfl
    have hg : c2dot.get_size 0 =
        pyIntR ((MAX_DOT_SIZE : ℝ) *
          (Real.sin (((0 : ℕ) : ℝ) * PULSATION_RATE + c2dot.phase) + 1) / 2) := by
      simp [Dot.get_size, hb]
    rw [hg, hs]
    have hM : ((MAX_DOT_SIZE : ℤ) : ℝ) = 5 := by norm_num [MAX_DOT_SIZE]
    rw [hM]
    have h0 : (0 : ℝ) ≤ 5 * (0 + 1) / 2 := by norm_num
    rw [pyIntR, if_pos h0, Int.floor_eq_iff]
    constructor <;> norm_num

/-- Witness for the universally quantified part of claim C2. -/
theorem claim_C2_witness :
    c2dot.is_static_bright = false ∧
    c2dot.get_size 0 =
      pyIntR ((MAX_DOT_SIZE : ℝ) *
        (Real.sin (((0 : ℕ) : ℝ) * (1 / 5) + c2dot.phase) + 1) / 2) :=
  ⟨rfl, claim_C2_get_size_formula.1 c2dot 0 rfl⟩

/-- pyIntR agrees with the floor on nonnegative reals. -/
lemma pyIntR_of_nonneg (r : ℝ) (h : 0 ≤ r) : pyIntR r = ⌊r⌋ := if_pos h

/-- The size of a non-static-bright dot, unfolded. -/
lemma get_size_pulsating (d : Dot) (n : ℕ) (h : d.is_static_bright = false) :
    d.get_size n =
      pyIntR ((MAX_DOT_SIZE : ℝ) *
        (Real.sin ((n : ℝ) * PULSATION_RATE + d.phase) + 1) / 2) := by
  simp [Dot.get_size, h]

/-- Claim C6 (amended): the size of every dot at every frame lies in
[0, 2 * MAX_DOT_SIZE]; a static bright dot always has size exactly
2 * MAX_DOT_SIZE; a non-static-bright dot has size 0 whenever its sinusoid
attains -1, and has size MAX_DOT_SIZE exactly when its sinusoid attains 1. -/
theorem claim_C6_size_range (d : Dot) (n : ℕ) :
    (0 ≤ d.get_size n ∧ d.get_size n ≤ 2 * MAX_DOT_SIZE) ∧
    (d.is_static_bright = true → d.get_size n = 2 * MAX_DOT_SIZE) ∧
    (d.is_static_bright = false →
      (Real.sin ((n : ℝ) * PULSATION_RATE + d.phase) = -1 → d.get_size n = 0) ∧
      (Real.sin ((n : ℝ) * PULSATION_RATE + d.phase) = 1 ↔
        d.get_size n = MAX_DOT_SIZE)) := by
  cases hb : d.is_static_bright
  · have hg := get_size_pulsating d n hb
    have hM : ((MAX_DOT_SIZE : ℤ) : ℝ) = 5 := by norm_num [MAX_DOT_SIZE]
    rw [hM] at hg
    have hp1 : Real.sin ((n : ℝ) * PULSATION_RATE + d.phase) ≤ 1 :=
      Real.sin_le_one _
    have hp2 : -1 ≤ Real.sin ((n : ℝ) * PULSATION_RATE + d.phase) :=
      Real.neg_one_le_sin _
    have hr0 : (0 : ℝ) ≤
        5 * (Real.sin ((n : ℝ) * PULSATION_RATE + d.phase) + 1) / 2 := by
      linarith
    have hr5 : 5 * (Real.sin ((n : ℝ) * PULSATION_RATE + d.phase) + 1) / 2
        ≤ 5 := by linarith
    rw [pyIntR_of_nonneg _ hr0] at hg
    refine ⟨⟨?_, ?_⟩, ?_, fun _ => ⟨?_, ?_, ?_⟩⟩
    · rw [hg]
      exact Int.floor_nonneg.mpr hr0
    · rw [hg]
      have h5 : ⌊(5 * (Real.sin ((n : ℝ) * PULSATION_RATE + d.phase) + 1) / 2 : ℝ)⌋
          ≤ ⌊(5 : ℝ)⌋ := Int.floor_le_floor hr5
      have : ⌊(5 : ℝ)⌋ = 5 := by norm_num
      rw [this] at h5
      norm_num [MAX_DOT_SIZE]
      linarith
    · intro hcontra
      exact absurd hcontra (by simp)
    · intro hsin
      rw [hg, hsin]
      norm_num
    · intro hsin
      rw [hg, hsin]
      have : (5 * ((1 : ℝ) + 1) / 2 : ℝ) = 5 := by norm_num
      rw [this]
      norm_num [MAX_DOT_SIZE]
    · intro hsize
      rw [hg] at hsize
      have h5le : (5 : ℤ) ≤
          ⌊(5 * (Real.sin ((n : ℝ) * PULSATION_RATE + d.phase) + 1) / 2 : ℝ)⌋ := by
        rw [hsize]
        norm_num [MAX_DOT_SIZE]
      have hle : ((5 : ℤ) : ℝ) ≤
          5 * (Real.sin ((n : ℝ) * PULSATION_RATE + d.phase) + 1) / 2 :=
        Int.le_floor.mp h5le
      push_cast at hle
      linarith
  · have hg : d.get_size n = MAX_DOT_SIZE * 2 := by
      simp [Dot.get_size, hb]
    rw [hg]
    refine ⟨⟨by norm_num [MAX_DOT_SIZE], by norm_num [MAX_DOT_SIZE]⟩,
      fun _ => by ring, fun hcontra => ?_⟩
    exact absurd hcontra (by simp)

/-- A dot whose sinusoid at frame 0 is -(sqrt 3)/2: small enough that the
truncated size is 0 although the sinusoid is not -1. -/
noncomputable def c6dot : Dot :=
  Dot.mkInit 10 10 false false (Real.pi + Real.pi / 3) 0 0

/-- Counterexample to claim C6 as stated: this dot has size 0 at frame 0,
yet its sinusoid there is -(sqrt 3)/2, not -1, so the size is not 0
"exactly when" the sinusoid attains -1. -/
theorem claim_C6_counterexample :
    c6dot.get_size 0 = 0 ∧
    Real.sin (((0 : ℕ) : ℝ) * PULSATION_RATE + c6dot.phase) ≠ -1 := by
  have hphase : c6dot.phase = Real.pi + Real.pi / 3 := rfl
  have harg : ((0 : ℕ) : ℝ) * PULSATION_RATE + c6dot.phase =
      Real.pi + Real.pi / 3 := by
    rw [hphase]
    norm_num
  have hsin : Real.sin (Real.pi + Real.pi / 3) = -(Real.sqrt 3 / 2) := by
    rw [Real.sin_add, Real.sin_pi, Real.cos_pi, Real.sin_pi_div_three]
    ring
  have hlt : Real.sqrt 3 < 9 / 5 := by
    rw [Real.sqrt_lt' (by norm_num : (0 : ℝ) < 9 / 5)]
    norm_num
  have hgt : (17 / 10 : ℝ) < Real.sqrt 3 := by
    rw [Real.lt_sqrt (by norm_num : (0 : ℝ) ≤ 17 / 10)]
    norm_num
  constructor
  · have hg := get_size_pulsating c6dot 0 rfl
    have hM : ((MAX_DOT_SIZE : ℤ) : ℝ) = 5 := by norm_num [MAX_DOT_SIZE]
    rw [hM, harg, hsin] at hg
    have h0 : (0 : ℝ) ≤ 5 * (-(Real.sqrt 3 / 2) + 1) / 2 := by nlinarith
    rw [pyIntR_of_nonneg _ h0] at hg
    rw [hg, Int.floor_eq_iff]
    constructor
    · exact_mod_cast h0
    · push_cast
      nlinarith
  · rw [harg, hsin]
    intro hcontra
    have : Real.sqrt 3 = 2 := by linarith
    linarith

/-- A concrete static bright dot for the C6 witness. -/
def c6sb : Dot := Dot.mkInit 7 8 false true 0 0 0

/-- Witness for the amended claim C6 at a concrete static bright dot. -/
theorem claim_C6_witness :
    c6sb.is_static_bright = true ∧ c6sb.get_size 0 = 2 * MAX_DOT_SIZE :=
  ⟨rfl, (claim_C6_size_range c6sb 0).2.1 rfl⟩

/-- Claim C7: draw_frame rasters onto the freshly allocated all-zero
buffer, and the per-dot raster step leaves the buffer untouched whenever
the size computed for the (already updated) dot is 0, for any external
circle primitive. -/
theorem claim_C7_zero_buffer_and_skip (circle : Buffer → ℤ × ℤ → ℤ → Buffer)
    (blur : Buffer → Buffer) (dots : List Dot) (n : ℕ) :
    (∀ i j, zero_frame i j = (0, 0, 0)) ∧
    draw_frame circle blur dots n =
      ((raster circle dots n).1, blur (raster circle dots n).2) ∧
    raster circle dots n = dots.foldl (draw_step circle n) ([], zero_frame) ∧
    (∀ (d : Dot) (st : List Dot × Buffer),
      (d.update n).get_size n = 0 → (draw_step circle n st d).2 = st.2) := by
  refine ⟨fun i j => rfl, rfl, rfl, fun d st h => ?_⟩
  simp [draw_step, h]

/-- A circle primitive that paints every pixel, used to make witnesses
observable. -/
def fullCircle : Buffer → ℤ × ℤ → ℤ → Buffer :=
  fun _ _ _ => fun _ _ => (255, 255, 255)

/-- A stationary dot whose sinusoid at frame 0 is exactly -1, so its size
there is 0. -/
noncomputable def c7dot : Dot :=
  Dot.mkInit 10 10 false false (Real.pi + Real.pi / 2) 0 0

/-- Witness for claim C7: the zero-size dot leaves the buffer unchanged
even under a circle primitive that would paint everything. -/
theorem claim_C7_witness :
    (c7dot.update 0).get_size 0 = 0 ∧
    (draw_step fullCircle 0 (([] : List Dot), zero_frame) c7dot).2 =
      (([] : List Dot), zero_frame).2 := by
  have hupd : c7dot.update 0 = c7dot := rfl
  have harg : ((0 : ℕ) : ℝ) * PULSATION_RATE + c7dot.phase =
      Real.pi + Real.pi / 2 := by
    show ((0 : ℕ) : ℝ) * PULSATION_RATE + (Real.pi + Real.pi / 2) =
      Real.pi + Real.pi / 2
    norm_num
  have hsin : Real.sin (Real.pi + Real.pi / 2) = -1 := by
    rw [Real.sin_add, Real.sin_pi, Real.cos_pi, Real.sin_pi_div_two]
    ring
  have hsize : (c7dot.update 0).get_size 0 = 0 := by
    rw [hupd]
    have hg := get_size_pulsating c7dot 0 rfl
    rw [harg, hsin] at hg
    have hz : ((MAX_DOT_SIZE : ℤ) : ℝ) * (-1 + 1) / 2 = 0 := by norm_num
    rw [hz, pyIntR_of_nonneg _ le_rfl, Int.floor_zero] at hg
    exact hg
  exact ⟨hsize,
    (claim_C7_zero_buffer_and_skip fullCircle id [] 0).2.2.2 c7dot
      (([] : List Dot), zero_frame) hsize⟩

/-- Unfolding of the population state after one more frame. -/
lemma dots_after_succ (circle : Buffer → ℤ × ℤ → ℤ → Buffer)
    (blur : Buffer → Buffer) (dots : List Dot) (m : ℕ) :
    dots_after circle blur dots (m + 1) =
      (draw_frame circle blur (dots_after circle blur dots m) m).1 := by
  rw [dots_after, List.range_succ, List.foldl_append]
  rfl

/-- Claim C9: the frame loop renders exactly one frame per index
0, ..., frame_count - 1, in increasing order: the output sequence is the
map over List.range of the render at index k applied to the population
state produced solely by the renders at indices below k, and the final
population state is that after all frame_count renders. -/
theorem claim_C9_frame_loop (circle : Buffer → ℤ × ℤ → ℤ → Buffer)
    (blur : Buffer → Buffer) (dots : List Dot) (frame_count : ℕ) :
    run_frames circle blur dots frame_count =
      (dots_after circle blur dots frame_count,
       (List.range frame_count).map fun k =>
         (draw_frame circle blur (dots_after circle blur dots k) k).2) := by
  induction frame_count with
  | zero => rfl
  | succ m ih =>
    rw [run_frames, List.range_succ, List.foldl_append]
    have h1 : (List.range m).foldl (sim_step circle blur) (dots, []) =
        run_frames circle blur dots m := rfl
    rw [h1, ih, List.map_append, dots_after_succ]
    simp only [List.foldl_cons, List.foldl_nil, List.map_cons, List.map_nil,
      sim_step]

/-- Witness for claim C9 at a concrete instantiation. -/
theorem claim_C9_witness :
    run_frames fullCircle id [] 2 =
      (dots_after fullCircle id [] 2,
       (List.range 2).map fun k =>
         (draw_frame fullCircle id (dots_after fullCircle id [] k) k).2) :=
  claim_C9_frame_loop fullCircle id [] 2

/-- A map over List.range whose values are all equal is a replicate. -/
lemma map_range_eq_replicate {α : Type} (n : ℕ) (f : ℕ → α) (c : α)
    (h : ∀ i, f i = c) : (List.range n).map f = List.replicate n c := by
  induction n with
  | zero => rfl
  | succ m ih =>
    rw [List.range_succ, List.map_append, ih, List.map_cons, List.map_nil,
      h m, List.replicate_succ']

/-- countP over a map of List.range whose predicate value is constant. -/
lemma countP_map_range {α : Type} (p : α → Bool) (f : ℕ → α) (n : ℕ)
    (b : Bool) (h : ∀ i, p (f i) = b) :
    ((List.range n).map f).countP p = if b then n else 0 := by
  induction n with
  | zero => cases b <;> simp
  | succ m ih =>
    rw [List.range_succ, List.map_append, List.countP_append, ih,
      List.map_cons, List.map_nil]
    cases b <;> simp [List.countP_cons, h m]

/-- countP on a replicate list. -/
lemma countP_replicate {α : Type} (p : α → Bool) (n : ℕ) (a : α) :
    (List.replicate n a).countP p = if p a then n else 0 := by
  induction n with
  | zero => cases hp : p a <;> simp
  | succ m ih =>
    rw [List.replicate_succ, List.countP_cons, ih]
    cases hp : p a <;> simp [hp]

/-- The categories of the population built by create_dots, blockwise. -/
lemma create_dots_map_category (total : ℕ) (mf sf : ℚ)
    (pos vel : ℕ → ℚ × ℚ) (phase : ℕ → ℝ) :
    (create_dots total mf sf pos vel phase).map Dot.category =
      List.replicate (num_moving total mf).toNat Category.moving ++
      List.replicate (num_static_bright total sf).toNat Category.staticBright ++
      List.replicate (num_pulsating total mf sf).toNat
        Category.stationaryPulsating := by
  simp only [create_dots, List.map_append, List.map_map]
  refine congrArg₂ (· ++ ·) (congrArg₂ (· ++ ·) ?_ ?_) ?_
  · exact map_range_eq_replicate _ _ _ fun i => rfl
  · exact map_range_eq_replicate _ _ _ fun i => rfl
  · exact map_range_eq_replicate _ _ _ fun i => rfl

/-- is_true_event agrees with the StationaryPulsating category test. -/
lemma is_true_event_eq_category_test (d : Dot) :
    d.is_true_event = decide (d.category = Category.stationaryPulsating) := by
  cases hm : d.is_moving <;> cases hs : d.is_static_bright <;>
    simp [Dot.is_true_event, Dot.category, hm, hs]

/-- The true-event count is the StationaryPulsating category count. -/
lemma true_events_eq_count (dots : List Dot) :
    true_events dots = count_category Category.stationaryPulsating dots := by
  rw [true_events, count_category]
  induction dots with
  | nil => rfl
  | cons d rest ih =>
    rw [List.countP_cons, List.countP_cons, ih, is_true_event_eq_category_test]

/-- count_category through the category map. -/
lemma count_category_eq_countP_map (c : Category) (dots : List Dot) :
    count_category c dots =
      (dots.map Dot.category).countP fun x => decide (x = c) := by
  rw [count_category, List.countP_map]
  rfl

/-- Claim C10: the population built by create_dots is grouped by category
in a fixed block order: first the moving dots, then the static bright
dots, then the stationary pulsating dots. -/
theorem claim_C10_block_order (total : ℕ) (mf sf : ℚ)
    (pos vel : ℕ → ℚ × ℚ) (phase : ℕ → ℝ) :
    (create_dots total mf sf pos vel phase).map Dot.category =
      List.replicate (num_moving total mf).toNat Category.moving ++
      List.replicate (num_static_bright total sf).toNat Category.staticBright ++
      List.replicate (num_pulsating total mf sf).toNat
        Category.stationaryPulsating :=
  create_dots_map_category total mf sf pos vel phase

/-- Witness for claim C10 at a concrete instantiation. -/
theorem claim_C10_witness :
    (create_dots 3 (1 / 3) (1 / 3) (fun _ => (0, 0)) (fun _ => (0, 0))
        fun _ => 0).map Dot.category =
      List.replicate (num_moving 3 (1 / 3)).toNat Category.moving ++
      List.replicate (num_static_bright 3 (1 / 3)).toNat Category.staticBright ++
      List.replicate (num_pulsating 3 (1 / 3) (1 / 3)).toNat
        Category.stationaryPulsating :=
  claim_C10_block_order 3 (1 / 3) (1 / 3) (fun _ => (0, 0)) (fun _ => (0, 0))
    fun _ => 0

/-- Claim C3: the factory counts are the floors of the configured
fractions of the total (for nonnegative fractions), the three counts
always sum to the total, and for the configured 200 dots with fractions
1/10 and 1/20 the population holds exactly 20 moving, 10 static bright
and 170 stationary pulsating dots, with the manifest summary reporting
170 true events and 30 false events. -/
theorem claim_C3_population_counts :
    (∀ (total : ℕ) (mf sf : ℚ), 0 ≤ mf → 0 ≤ sf →
      num_moving total mf = ⌊(total : ℚ) * mf⌋ ∧
      num_static_bright total sf = ⌊(total : ℚ) * sf⌋ ∧
      num_moving total mf + num_static_bright total sf +
        num_pulsating total mf sf = total) ∧
    (num_moving NUM_DOTS MOVING_PERCENTAGE = 20 ∧
     num_static_bright NUM_DOTS STATIC_BRIGHT_PERCENTAGE = 10 ∧
     num_pulsating NUM_DOTS MOVING_PERCENTAGE STATIC_BRIGHT_PERCENTAGE = 170) ∧
    (∀ (pos vel : ℕ → ℚ × ℚ) (phase : ℕ → ℝ),
      count_category Category.moving
        (create_dots NUM_DOTS MOVING_PERCENTAGE STATIC_BRIGHT_PERCENTAGE
          pos vel phase) = 20 ∧
      count_category Category.staticBright
        (create_dots NUM_DOTS MOVING_PERCENTAGE STATIC_BRIGHT_PERCENTAGE
          pos vel phase) = 10 ∧
      count_category Category.stationaryPulsating
        (create_dots NUM_DOTS MOVING_PERCENTAGE STATIC_BRIGHT_PERCENTAGE
          pos vel phase) = 170 ∧
      (create_dots NUM_DOTS MOVING_PERCENTAGE STATIC_BRIGHT_PERCENTAGE
          pos vel phase).length = 200 ∧
      true_events
        (create_dots NUM_DOTS MOVING_PERCENTAGE STATIC_BRIGHT_PERCENTAGE
          pos vel phase) = 170 ∧
      false_events
        (create_dots NUM_DOTS MOVING_PERCENTAGE STATIC_BRIGHT_PERCENTAGE
          pos vel phase) = 30) := by
  have h20 : num_moving NUM_DOTS MOVING_PERCENTAGE = 20 := by
    norm_num [num_moving, pyIntQ, NUM_DOTS, MOVING_PERCENTAGE]
  have h10 : num_static_bright NUM_DOTS STATIC_BRIGHT_PERCENTAGE = 10 := by
    norm_num [num_static_bright, pyIntQ, NUM_DOTS, STATIC_BRIGHT_PERCENTAGE]
  have h170 : num_pulsating NUM_DOTS MOVING_PERCENTAGE
      STATIC_BRIGHT_PERCENTAGE = 170 := by
    rw [num_pulsating, h20, h10]
    norm_num [NUM_DOTS]
  refine ⟨fun total mf sf hmf hsf => ⟨?_, ?_, ?_⟩, ⟨h20, h10, h170⟩,
    fun pos vel phase => ?_⟩
  · rw [num_moving, pyIntQ, if_pos (mul_nonneg (Nat.cast_nonneg total) hmf)]
  · rw [num_static_bright, pyIntQ, if_pos (mul_nonneg (Nat.cast_nonneg total) hsf)]
  · rw [num_pulsating]
    ring
  · have hmapcat := create_dots_map_category NUM_DOTS MOVING_PERCENTAGE
      STATIC_BRIGHT_PERCENTAGE pos vel phase
    rw [h20, h10, h170] at hmapcat
    rw [show ((20 : ℤ)).toNat = 20 from rfl, show ((10 : ℤ)).toNat = 10 from rfl,
      show ((170 : ℤ)).toNat = 170 from rfl] at hmapcat
    have hlen : (create_dots NUM_DOTS MOVING_PERCENTAGE
        STATIC_BRIGHT_PERCENTAGE pos vel phase).length = 200 := by
      have hlm := congrArg List.length hmapcat
      rw [List.length_map, List.length_append, List.length_append,
        List.length_replicate, List.length_replicate,
        List.length_replicate] at hlm
      rw [hlm]
    have hcount : ∀ c : Category,
        count_category c (create_dots NUM_DOTS MOVING_PERCENTAGE
          STATIC_BRIGHT_PERCENTAGE pos vel phase) =
        (List.replicate 20 Category.moving ++
         List.replicate 10 Category.staticBright ++
         List.replicate 170 Category.stationaryPulsating).countP
          (fun x => decide (x = c)) := by
      intro c
      rw [count_category_eq_countP_map, hmapcat]
    refine ⟨?_, ?_, ?_, hlen, ?_, ?_⟩
    · rw [hcount, List.countP_append, List.countP_append, countP_replicate,
        countP_replicate, countP_replicate]
      decide
    · rw [hcount, List.countP_append, List.countP_append, countP_replicate,
        countP_replicate, countP_replicate]
      decide
    · rw [hcount, List.countP_append, List.countP_append, countP_replicate,
        countP_replicate, countP_replicate]
      decide
    · rw [true_events_eq_count, hcount, List.countP_append, List.countP_append,
        countP_replicate, countP_replicate, countP_replicate]
      decide
    · rw [false_events, true_events_eq_count, hcount, hlen,
        List.countP_append, List.countP_append, countP_replicate,
        countP_replicate, countP_replicate]
      decide

/-- Witness for the universally quantified part of claim C3. -/
theorem claim_C3_witness :
    ((0 : ℚ) ≤ MOVING_PERCENTAGE ∧ (0 : ℚ) ≤ STATIC_BRIGHT_PERCENTAGE) ∧
    (num_moving NUM_DOTS MOVING_PERCENTAGE =
      ⌊(NUM_DOTS : ℚ) * MOVING_PERCENTAGE⌋ ∧
     num_static_bright NUM_DOTS STATIC_BRIGHT_PERCENTAGE =
      ⌊(NUM_DOTS : ℚ) * STATIC_BRIGHT_PERCENTAGE⌋ ∧
     num_moving NUM_DOTS MOVING_PERCENTAGE +
       num_static_bright NUM_DOTS STATIC_BRIGHT_PERCENTAGE +
       num_pulsating NUM_DOTS MOVING_PERCENTAGE STATIC_BRIGHT_PERCENTAGE =
       NUM_DOTS) :=
  ⟨⟨by norm_num [MOVING_PERCENTAGE], by norm_num [STATIC_BRIGHT_PERCENTAGE]⟩,
   claim_C3_population_counts.1 NUM_DOTS MOVING_PERCENTAGE
     STATIC_BRIGHT_PERCENTAGE (by norm_num [MOVING_PERCENTAGE])
     (by norm_num [STATIC_BRIGHT_PERCENTAGE])⟩

end SmTIRF
